import Mathlib

/-!
Verification of the connection health-probing engine of the
multi-region-dashboard repository (src/app/database.py,
src/app/db_manager_postgres.py, src/app/routers/api.py).

Modelling conventions:
* Python floats (perf_counter timings, milliseconds) are modelled as exact
  rationals (ℚ).
* `round(x, 2)` is modelled by `pyRound2`: scale by 100, round half to even,
  divide by 100.
* Fallible awaits (connection open, query execution) are modelled as
  `Except String` values (the error message a raised exception would carry);
  where `asyncio.wait_for` adds a timeout path the three-way `SubQT` outcome
  is used instead.
* A Python dict returned by a probe is modelled as a structure; a key that a
  given return statement leaves out is `none` (or `[]` for the warnings list).
-/

namespace MRDash

/-- needle-at-front test on character lists (Python substring search helper). -/
def hasPfx : List Char → List Char → Bool
  | _, [] => true
  | [], _ :: _ => false
  | a :: as, b :: bs => a == b && hasPfx as bs

/-- substring containment on character lists: some suffix of the haystack
starts with the needle. -/
def hasSub : List Char → List Char → Bool
  | [], needle => needle.isEmpty
  | a :: as, needle => hasPfx (a :: as) needle || hasSub as needle

/-- Python `hay.lower()` as a character list (ASCII case folding). -/
def lowerChars (s : String) : List Char :=
  s.toList.map Char.toLower

/-- Python `needle in hay` on strings. -/
def strContains (hay needle : String) : Bool :=
  hasSub hay.toList needle.toList

/-- The fixed substring list of `_is_privilege_error`
(src/app/database.py lines 123-131). -/
def privilegeIndicators : List String :=
  ["permission denied", "insufficient privilege", "must be superuser",
   "access denied", "must be owner", "privilege", "not authorized"]

/-- src/app/database.py `_is_privilege_error`: lower-case the message and
test it against the fixed indicator list. -/
def _is_privilege_error (error_msg : String) : Bool :=
  privilegeIndicators.any (fun indicator => hasSub (lowerChars error_msg) indicator.toList)

/-- Round a rational to the nearest integer, ties to even
(Python built-in `round` on a value with fractional part). -/
def roundHalfEven (q : ℚ) : ℤ :=
  if q - (⌊q⌋ : ℚ) < 1/2 then ⌊q⌋
  else if 1/2 < q - (⌊q⌋ : ℚ) then ⌊q⌋ + 1
  else if Even ⌊q⌋ then ⌊q⌋ else ⌊q⌋ + 1

/-- Python `round(x, 2)` over exact rationals. -/
def pyRound2 (q : ℚ) : ℚ :=
  ((roundHalfEven (100 * q) : ℤ) : ℚ) / 100

/-- Python `min(timings)` over the nonempty list `x :: xs` (a left fold). -/
def listMinQ (x : ℚ) (xs : List ℚ) : ℚ := xs.foldl min x

/-- Python `max(timings)` over the nonempty list `x :: xs` (a left fold). -/
def listMaxQ (x : ℚ) (xs : List ℚ) : ℚ := xs.foldl max x

/-- Result dict of one single-probe connection test
(src/app/database.py `test_connection`, src/app/db_manager_postgres.py
`test_connection_with_password`): keys a given return statement leaves out
are `none`. -/
structure ConnTestResult where
  success : Bool
  server_ip : Option String := none
  backend_pid : Option ℤ := none
  pg_version : Option String := none
  latency_ms : Option ℚ := none
  error : Option String := none
deriving DecidableEq, Repr

/-- src/app/database.py `test_connection`: `query` is the outcome of the
connect + diagnostic fetchrow (server ip, backend pid, version), `elapsed`
the measured wall-clock milliseconds. -/
def test_connection (dsn : Option String)
    (query : Except String (String × ℤ × String)) (elapsed : ℚ) : ConnTestResult :=
  match dsn with
  | none => { success := false, error := some "No database connection string configured" }
  | some _ =>
    match query with
    | .error e => { success := false, error := some e }
    | .ok (ip, pid, ver) =>
      { success := true, server_ip := some ip, backend_pid := some pid,
        pg_version := some ver, latency_ms := some (pyRound2 elapsed) }

/-- Latency report dict (src/app/database.py `measure_latency` /
`measure_connection_latency`). -/
structure LatencyReport where
  success : Bool
  iterations : Option ℕ := none
  min_ms : Option ℚ := none
  max_ms : Option ℚ := none
  avg_ms : Option ℚ := none
  timings : Option (List ℚ) := none
  error : Option String := none
  connection_id : Option String := none
  connection_name : Option String := none
deriving DecidableEq, Repr

/-- The message of the ValueError Python `min` raises on an empty sequence
(caught by the catch-all handler of the latency and load-test loops). -/
def emptySeqError : String := "min() arg is an empty sequence"

/-- The sequential latency loop: each iteration is a fresh connect + query;
the first raised exception aborts the loop and carries its message out. -/
def runIters : List (Except String ℚ) → Except String (List ℚ)
  | [] => .ok []
  | .error e :: _ => .error e
  | .ok t :: rest =>
    match runIters rest with
    | .error e => .error e
    | .ok ts => .ok (t :: ts)

/-- src/app/database.py `measure_latency`: `iterOutcome i` is the outcome of
iteration `i` (measured milliseconds, or the message of the exception it
raised). An empty timing list makes `min(timings)` raise; the catch-all
handler turns that into a failure report. -/
def measure_latency (dsn : Option String) (iterations : ℕ)
    (iterOutcome : ℕ → Except String ℚ) : LatencyReport :=
  match dsn with
  | none => { success := false, error := some "No database connection string configured" }
  | some _ =>
    match runIters ((List.range iterations).map iterOutcome) with
    | .error e => { success := false, error := some e }
    | .ok [] => { success := false, error := some emptySeqError }
    | .ok (t :: ts) =>
      { success := true
        iterations := some iterations
        min_ms := some (pyRound2 (listMinQ t ts))
        max_ms := some (pyRound2 (listMaxQ t ts))
        avg_ms := some (pyRound2 ((t :: ts).sum / ((t :: ts).length : ℚ)))
        timings := some ((t :: ts).map pyRound2) }

/-- Outcome of one awaited operation under `asyncio.wait_for`: value,
timeout expiry, or another raised exception. -/
inductive SubQT (α : Type) where
  | ok (v : α)
  | timeout
  | err (msg : String)
deriving DecidableEq, Repr

/-- src/app/db_manager_postgres.py `DatabaseConnection` (the fields the
probe engine reads; the stored password is already decrypted, `none` models
a falsy/absent one). -/
structure DatabaseConnection where
  id : String
  name : String
  host : String
  port : ℤ
  database : String
  username : String
  password : Option String
deriving DecidableEq, Repr

/-- Result of the per-connection sequential latency loop: the collected
timings, or the first timeout / first other exception. -/
inductive LoopOut where
  | ok (ts : List ℚ)
  | timeout
  | err (msg : String)
deriving DecidableEq, Repr

def runItersT : List (SubQT ℚ) → LoopOut
  | [] => .ok []
  | .timeout :: _ => .timeout
  | .err e :: _ => .err e
  | .ok t :: rest =>
    match runItersT rest with
    | .ok ts => .ok (t :: ts)
    | .timeout => .timeout
    | .err e => .err e

/-- The f-string of the outer `asyncio.TimeoutError` handlers. -/
def timeoutError (timeout : ℚ) : String :=
  "Connection timeout after " ++ toString timeout ++ " seconds"

/-- src/app/database.py `measure_connection_latency`. -/
def measure_connection_latency (c : DatabaseConnection) (iterations : ℕ)
    (timeout : ℚ) (iterOutcome : ℕ → SubQT ℚ) : LatencyReport :=
  match c.password with
  | none =>
    { success := false, error := some "No password provided for database connection",
      connection_id := some c.id, connection_name := some c.name }
  | some _ =>
    match runItersT ((List.range iterations).map iterOutcome) with
    | .timeout =>
      { success := false, error := some (timeoutError timeout),
        connection_id := some c.id, connection_name := some c.name }
    | .err e =>
      { success := false, error := some e,
        connection_id := some c.id, connection_name := some c.name }
    | .ok [] =>
      { success := false, error := some emptySeqError,
        connection_id := some c.id, connection_name := some c.name }
    | .ok (t :: ts) =>
      { success := true
        iterations := some iterations
        min_ms := some (pyRound2 (listMinQ t ts))
        max_ms := some (pyRound2 (listMaxQ t ts))
        avg_ms := some (pyRound2 ((t :: ts).sum / ((t :: ts).length : ℚ)))
        timings := some ((t :: ts).map pyRound2)
        connection_id := some c.id
        connection_name := some c.name }

/-- Load-test report dict (src/app/database.py `load_test` /
`run_connection_load_test`). -/
structure LoadTestReport where
  success : Bool
  concurrent : Option ℕ := none
  min_ms : Option ℚ := none
  max_ms : Option ℚ := none
  avg_ms : Option ℚ := none
  total_time_ms : Option ℚ := none
  queries_per_second : Option ℚ := none
  error : Option String := none
  connection_id : Option String := none
  connection_name : Option String := none
deriving DecidableEq, Repr

/-- src/app/database.py `load_test`: `probeOutcome i` is the outcome of the
i-th concurrent probe, `totalTime` the wall clock of the whole fan-out in
milliseconds. `asyncio.gather` re-raises the earliest raised exception; the
list order determinizes that choice here. `totalTime = 0` makes the
queries-per-second division raise a ZeroDivisionError, which the catch-all
handler converts to a failure report. -/
def load_test (dsn : Option String) (concurrent : ℕ)
    (probeOutcome : ℕ → Except String ℚ) (totalTime : ℚ) : LoadTestReport :=
  match dsn with
  | none => { success := false, error := some "No database connection string configured" }
  | some _ =>
    match runIters ((List.range concurrent).map probeOutcome) with
    | .error e => { success := false, error := some e }
    | .ok [] => { success := false, error := some emptySeqError }
    | .ok (t :: ts) =>
      if totalTime = 0 then { success := false, error := some "float division by zero" }
      else
        { success := true
          concurrent := some concurrent
          min_ms := some (pyRound2 (listMinQ t ts))
          max_ms := some (pyRound2 (listMaxQ t ts))
          avg_ms := some (pyRound2 ((t :: ts).sum / ((t :: ts).length : ℚ)))
          total_time_ms := some (pyRound2 totalTime)
          queries_per_second := some (pyRound2 ((concurrent : ℚ) / (totalTime / 1000))) }

/-- src/app/database.py `run_connection_load_test`. -/
def run_connection_load_test (c : DatabaseConnection) (concurrent : ℕ)
    (timeout : ℚ) (probeOutcome : ℕ → SubQT ℚ) (totalTime : ℚ) : LoadTestReport :=
  match c.password with
  | none =>
    { success := false, error := some "No password provided for database connection",
      connection_id := some c.id, connection_name := some c.name }
  | some _ =>
    match runItersT ((List.range concurrent).map probeOutcome) with
    | .timeout =>
      { success := false, error := some (timeoutError timeout),
        connection_id := some c.id, connection_name := some c.name }
    | .err e =>
      { success := false, error := some e,
        connection_id := some c.id, connection_name := some c.name }
    | .ok [] =>
      { success := false, error := some emptySeqError,
        connection_id := some c.id, connection_name := some c.name }
    | .ok (t :: ts) =>
      if totalTime = 0 then
        { success := false, error := some "float division by zero",
          connection_id := some c.id, connection_name := some c.name }
      else
        { success := true
          concurrent := some concurrent
          min_ms := some (pyRound2 (listMinQ t ts))
          max_ms := some (pyRound2 (listMaxQ t ts))
          avg_ms := some (pyRound2 ((t :: ts).sum / ((t :: ts).length : ℚ)))
          total_time_ms := some (pyRound2 totalTime)
          queries_per_second := some (pyRound2 ((concurrent : ℚ) / (totalTime / 1000)))
          connection_id := some c.id
          connection_name := some c.name }

/-- One converted row of the pg_stat_statements top-N query (representative
fields; the per-row conversion can raise and the row is then skipped). -/
structure PgStatRow where
  queryid : Option String
  query : String
  calls : ℤ
deriving DecidableEq, Repr

/-- The repeated warning pattern of the health sub-query handlers: privilege
failures are reported with a fixed text, other messages verbatim. -/
def subWarn (label : String) (e : String) : String :=
  if _is_privilege_error e then label ++ ": insufficient privileges"
  else label ++ ": " ++ e

/-- Health report dict (src/app/database.py `get_health_metrics` /
`get_connection_health_metrics`). -/
structure HealthReport where
  success : Bool
  cache_hit_ratio : Option ℚ := none
  active_connections : Option ℤ := none
  idle_connections : Option ℤ := none
  total_connections : Option ℤ := none
  db_size : Option String := none
  pg_stat_statements : Option (List PgStatRow) := none
  pg_stat_statements_available : Bool := false
  warnings : List String := []
  error : Option String := none
  connection_id : Option String := none
  connection_name : Option String := none
  host : Option String := none
  port : Option ℤ := none
  database : Option String := none
deriving DecidableEq, Repr

/-- Outcomes of the fixed sub-query sequence of `get_health_metrics`:
cache-hit ratio row (inner Option models a SQL NULL ratio), connection
counts (active, idle, total), database size, extension-existence check, and
the pg_stat_statements fetch (each row may fail conversion and be skipped). -/
structure HealthInputs where
  cacheQ : Except String (Option ℚ)
  connQ : Except String (ℤ × ℤ × ℤ)
  sizeQ : Except String String
  extQ : Except String Bool
  stmtsQ : Except String (List (Except Unit PgStatRow))

/-- The pg_stat_statements part of `get_health_metrics`: statements list,
availability flag, warnings. -/
def extOutcome (extQ : Except String Bool)
    (stmtsQ : Except String (List (Except Unit PgStatRow))) :
    Option (List PgStatRow) × Bool × List String :=
  match extQ with
  | .error e => (none, false, [subWarn "Extension check" e])
  | .ok false => (none, false, [])
  | .ok true =>
    match stmtsQ with
    | .error e => (none, false, [subWarn "pg_stat_statements" e])
    | .ok rows => (some (rows.filterMap Except.toOption), true, [])

/-- The prefix of the summary error set when no metric at all was retrieved. -/
def healthFailurePrefix : String := "Unable to retrieve any health metrics. "

/-- src/app/database.py `get_health_metrics`: run the fixed sub-query
sequence, collect warnings for failures, then flip `success` to false iff
every one of the five nullable fields is still None (the pg_stat_statements
fields and the warnings are excluded from that check). -/
def get_health_metrics (dsn : Option String) (connect : Except String Unit)
    (inp : HealthInputs) : HealthReport :=
  match dsn with
  | none => { success := false, error := some "No database connection string configured" }
  | some _ =>
  match connect with
  | .error e => { success := false, error := some e }
  | .ok _ =>
    let cache_hit_ratio : Option ℚ × List String :=
      match inp.cacheQ with
      | .ok v => (some (v.getD 0), [])
      | .error e => (none, [subWarn "Cache hit ratio" e])
    let connVals : (Option ℤ × Option ℤ × Option ℤ) × List String :=
      match inp.connQ with
      | .ok v => ((some v.1, some v.2.1, some v.2.2), [])
      | .error e => ((none, none, none), [subWarn "Connection stats" e])
    let db_size : Option String × List String :=
      match inp.sizeQ with
      | .ok s => (some s, [])
      | .error e => (none, [subWarn "Database size" e])
    let ext := extOutcome inp.extQ inp.stmtsQ
    let warnings := cache_hit_ratio.2 ++ connVals.2 ++ db_size.2 ++ ext.2.2
    if cache_hit_ratio.1.isNone && connVals.1.1.isNone && connVals.1.2.1.isNone
        && connVals.1.2.2.isNone && db_size.1.isNone then
      { success := false
        cache_hit_ratio := cache_hit_ratio.1
        active_connections := connVals.1.1
        idle_connections := connVals.1.2.1
        total_connections := connVals.1.2.2
        db_size := db_size.1
        pg_stat_statements := ext.1
        pg_stat_statements_available := ext.2.1
        warnings := warnings
        error := some (healthFailurePrefix ++ String.intercalate "; " warnings) }
    else
      { success := true
        cache_hit_ratio := cache_hit_ratio.1
        active_connections := connVals.1.1
        idle_connections := connVals.1.2.1
        total_connections := connVals.1.2.2
        db_size := db_size.1
        pg_stat_statements := ext.1
        pg_stat_statements_available := ext.2.1
        warnings := warnings }

/-- Outcomes of the sub-query sequence of `get_connection_health_metrics`:
as `HealthInputs`, but each sub-query is wrapped in `asyncio.wait_for` and
may also time out. -/
structure HealthInputsT where
  cacheQ : SubQT (Option ℚ)
  connQ : SubQT (ℤ × ℤ × ℤ)
  sizeQ : SubQT String
  extQ : SubQT Bool
  stmtsQ : SubQT (List (Except Unit PgStatRow))

/-- The pg_stat_statements part of `get_connection_health_metrics`. -/
def extOutcomeT (extQ : SubQT Bool)
    (stmtsQ : SubQT (List (Except Unit PgStatRow))) :
    Option (List PgStatRow) × Bool × List String :=
  match extQ with
  | .err e => (none, false, [subWarn "Extension check" e])
  | .timeout => (none, false, ["Extension check: query timeout"])
  | .ok false => (none, false, [])
  | .ok true =>
    match stmtsQ with
    | .err e => (none, false, [subWarn "pg_stat_statements" e])
    | .timeout => (none, false, ["pg_stat_statements: query timeout"])
    | .ok rows => (some (rows.filterMap Except.toOption), true, [])

/-- src/app/database.py `get_connection_health_metrics`: per-connection
variant with a timeout on the connect and on each sub-query. -/
def get_connection_health_metrics (c : DatabaseConnection) (timeout : ℚ)
    (connect : SubQT Unit) (inp : HealthInputsT) : HealthReport :=
  match c.password with
  | none =>
    { success := false, error := some "No password provided for database connection",
      connection_id := some c.id, connection_name := some c.name }
  | some _ =>
  match connect with
  | .timeout =>
    { success := false, error := some (timeoutError timeout),
      connection_id := some c.id, connection_name := some c.name,
      warnings := ["Connection timeout"] }
  | .err e =>
    { success := false, error := some e,
      connection_id := some c.id, connection_name := some c.name,
      warnings := ["Connection failed: " ++ e] }
  | .ok _ =>
    let cache_hit_ratio : Option ℚ × List String :=
      match inp.cacheQ with
      | .ok v => (some (v.getD 0), [])
      | .timeout => (none, ["Cache hit ratio: query timeout"])
      | .err e => (none, [subWarn "Cache hit ratio" e])
    let connVals : (Option ℤ × Option ℤ × Option ℤ) × List String :=
      match inp.connQ with
      | .ok v => ((some v.1, some v.2.1, some v.2.2), [])
      | .timeout => ((none, none, none), ["Connection stats: query timeout"])
      | .err e => ((none, none, none), [subWarn "Connection stats" e])
    let db_size : Option String × List String :=
      match inp.sizeQ with
      | .ok s => (some s, [])
      | .timeout => (none, ["Database size: query timeout"])
      | .err e => (none, [subWarn "Database size" e])
    let ext := extOutcomeT inp.extQ inp.stmtsQ
    let warnings := cache_hit_ratio.2 ++ connVals.2 ++ db_size.2 ++ ext.2.2
    if cache_hit_ratio.1.isNone && connVals.1.1.isNone && connVals.1.2.1.isNone
        && connVals.1.2.2.isNone && db_size.1.isNone then
      { success := false
        cache_hit_ratio := cache_hit_ratio.1
        active_connections := connVals.1.1
        idle_connections := connVals.1.2.1
        total_connections := connVals.1.2.2
        db_size := db_size.1
        pg_stat_statements := ext.1
        pg_stat_statements_available := ext.2.1
        warnings := warnings
        error := some (healthFailurePrefix ++ String.intercalate "; " warnings)
        connection_id := some c.id
        connection_name := some c.name
        host := some c.host
        port := some c.port
        database := some c.database }
    else
      { success := true
        cache_hit_ratio := cache_hit_ratio.1
        active_connections := connVals.1.1
        idle_connections := connVals.1.2.1
        total_connections := connVals.1.2.2
        db_size := db_size.1
        pg_stat_statements := ext.1
        pg_stat_statements_available := ext.2.1
        warnings := warnings
        connection_id := some c.id
        connection_name := some c.name
        host := some c.host
        port := some c.port
        database := some c.database }

/-- Identity fields of a stored target as the multi-target endpoint copies
them (src/app/routers/api.py `test_all_databases`). -/
structure ConnMeta where
  id : String
  name : String
  host : String
  port : ℤ
  region : Option String
  cloud_provider : Option String
deriving DecidableEq, Repr

/-- One per-target entry of the `test_all_databases` response. -/
structure AllDbEntry where
  id : String
  name : String
  host : String
  port : ℤ
  region : Option String
  cloud_provider : Option String
  test_result : ConnTestResult
deriving DecidableEq, Repr

/-- The `test_all_databases` JSON payload. -/
structure AllDbReport where
  results : List AllDbEntry
  total_databases : ℕ
  successful_tests : ℕ
  failed_tests : ℕ
deriving DecidableEq, Repr

/-- src/app/routers/api.py `test_all_databases` (lines 378-418): iterate the
stored targets in order, test each (`db_manager.test_connection` returns a
result dict, or the await raises and the except-arm builds a failure entry),
append entries in that same order, and count successes and failures. -/
def test_all_databases (conns : List (ConnMeta × Except String ConnTestResult)) :
    AllDbReport :=
  let results := conns.map (fun p =>
    { id := p.1.id, name := p.1.name, host := p.1.host, port := p.1.port,
      region := p.1.region, cloud_provider := p.1.cloud_provider,
      test_result :=
        match p.2 with
        | .ok r => r
        | .error e => { success := false, error := some e } : AllDbEntry })
  { results := results
    total_databases := conns.length
    successful_tests := (results.filter (fun r => r.test_result.success)).length
    failed_tests := (results.filter (fun r => !r.test_result.success)).length }

/-- src/app/db_manager_postgres.py `test_connection_with_password`, traced
for resource accounting: the returned triple is (result dict, connections
opened, connections closed). `conn.close()` stands on the success path only;
the except-arm returns without closing. -/
def test_connection_with_password (_c : DatabaseConnection) (_password : String)
    (connect : Except String Unit) (query : Except String (String × ℤ × String))
    (elapsed : ℚ) : ConnTestResult × ℕ × ℕ :=
  match connect with
  | .error e => ({ success := false, error := some e }, 0, 0)
  | .ok _ =>
    match query with
    | .error e => ({ success := false, error := some e }, 1, 0)
    | .ok (ip, pid, ver) =>
      ({ success := true, server_ip := some ip, backend_pid := some pid,
         pg_version := some ver, latency_ms := some (pyRound2 elapsed) }, 1, 1)

/-- src/app/database.py `test_connection` through the `get_connection`
context manager, traced the same way: the `finally: await conn.close()`
closes the connection on the success path and on the query-failure path. -/
def test_connection_traced (dsn : Option String) (connect : Except String Unit)
    (query : Except String (String × ℤ × String)) (elapsed : ℚ) :
    ConnTestResult × ℕ × ℕ :=
  match dsn with
  | none =>
    ({ success := false, error := some "No database connection string configured" }, 0, 0)
  | some _ =>
    match connect with
    | .error e => ({ success := false, error := some e }, 0, 0)
    | .ok _ =>
      match query with
      | .error e => ({ success := false, error := some e }, 1, 1)
      | .ok (ip, pid, ver) =>
        ({ success := true, server_ip := some ip, backend_pid := some pid,
           pg_version := some ver, latency_ms := some (pyRound2 elapsed) }, 1, 1)

/-- src/app/routers/api.py `test_database_latency` boundary check (lines
327-331): `iterations < 1 or iterations > 100` is rejected with a 400 before
any probing starts. -/
def apiIterationsRejected (iterations : ℤ) : Bool :=
  iterations < 1 || iterations > 100

/-- src/app/routers/api.py `run_database_load_test_endpoint` boundary check:
`concurrent < 1 or concurrent > 100` is rejected with a 400. -/
def apiConcurrentRejected (concurrent : ℤ) : Bool :=
  concurrent < 1 || concurrent > 100

/-- Concrete multi-target scenario of the spec: A fails, B succeeds at 5 ms,
C succeeds at 2 ms. -/
def c3Targets : List (ConnMeta × Except String ConnTestResult) :=
  [(⟨"A", "db-a", "hostA", 5432, none, none⟩,
      .ok { success := false, error := some "connection refused" }),
   (⟨"B", "db-b", "hostB", 5432, none, none⟩,
      .ok { success := true, latency_ms := some 5 }),
   (⟨"C", "db-c", "hostC", 5432, none, none⟩,
      .ok { success := true, latency_ms := some 2 })]

/-- The warnings one sub-query of `get_connection_health_metrics`
contributes, by outcome. -/
def numWarnT {α : Type} (label : String) : SubQT α → List String
  | .ok _ => []
  | .timeout => [label ++ ": query timeout"]
  | .err e => [subWarn label e]

/-- Concrete input for the C1 witness: all three numeric sub-queries raise. -/
def c1Inp : HealthInputs :=
  { cacheQ := .error "a", connQ := .error "b", sizeQ := .error "c",
    extQ := .ok false, stmtsQ := .ok [] }

/-- Concrete input refuting C2: the extension check and the slow-query fetch
both succeed, every numeric sub-query fails. -/
def c2Inp : HealthInputs :=
  { cacheQ := .error "permission denied for relation pg_stat_database",
    connQ := .error "permission denied for relation pg_stat_activity",
    sizeQ := .error "permission denied",
    extQ := .ok true, stmtsQ := .ok [] }

/-- Concrete input for the C2 witness: only the cache-hit sub-query succeeds. -/
def c2WitInp : HealthInputs :=
  { cacheQ := .ok (some 99), connQ := .error "x", sizeQ := .error "y",
    extQ := .error "z", stmtsQ := .error "w" }

/-- A concrete stored target used by concrete evaluations. -/
def demoConn : DatabaseConnection :=
  { id := "11", name := "demo", host := "db.example.com", port := 5432,
    database := "app", username := "probe", password := some "pw" }

theorem hasPfx_iff (hay needle : List Char) :
    hasPfx hay needle = true ↔ needle <+: hay := by
  induction hay generalizing needle with
  | nil =>
    cases needle with
    | nil => simp [hasPfx]
    | cons b bs => simp [hasPfx]
  | cons a as ih =>
    cases needle with
    | nil => simp [hasPfx]
    | cons b bs =>
      simp only [hasPfx, Bool.and_eq_true, beq_iff_eq, ih]
      constructor
      · rintro ⟨rfl, t, rfl⟩
        exact ⟨t, rfl⟩
      · rintro ⟨t, ht⟩
        cases ht
        exact ⟨rfl, t, rfl⟩

theorem hasSub_iff (hay needle : List Char) :
    hasSub hay needle = true ↔ needle <:+: hay := by
  induction hay with
  | nil =>
    cases needle with
    | nil => simp [hasSub]
    | cons b bs => simp [hasSub, List.isEmpty]
  | cons a as ih =>
    simp only [hasSub, Bool.or_eq_true, hasPfx_iff, ih]
    constructor
    · rintro (h | h)
      · exact h.isInfix
      · exact h.trans (List.suffix_cons a as).isInfix
    · rintro ⟨s, t, ht⟩
      cases s with
      | nil => exact Or.inl ⟨t, by simpa using ht⟩
      | cons x xs =>
        right
        simp only [List.cons_append] at ht
        injection ht with hx hrest
        exact ⟨xs, t, hrest⟩

theorem roundHalfEven_cases (q : ℚ) :
    roundHalfEven q = ⌊q⌋ ∨ roundHalfEven q = ⌊q⌋ + 1 := by
  unfold roundHalfEven
  split_ifs <;> simp

theorem roundHalfEven_mono {x y : ℚ} (h : x ≤ y) :
    roundHalfEven x ≤ roundHalfEven y := by
  rcases lt_or_le ⌊x⌋ ⌊y⌋ with hf | hf
  · have hx : roundHalfEven x ≤ ⌊x⌋ + 1 := by
      rcases roundHalfEven_cases x with h1 | h1 <;> omega
    have hy : ⌊y⌋ ≤ roundHalfEven y := by
      rcases roundHalfEven_cases y with h1 | h1 <;> omega
    omega
  · have hfe : ⌊x⌋ = ⌊y⌋ := le_antisymm (Int.floor_le_floor h) hf
    have hr : x - (⌊y⌋ : ℚ) ≤ y - (⌊y⌋ : ℚ) := by linarith
    unfold roundHalfEven
    rw [hfe]
    split_ifs <;> first | omega | (exfalso; linarith)

theorem pyRound2_mono {x y : ℚ} (h : x ≤ y) : pyRound2 x ≤ pyRound2 y := by
  unfold pyRound2
  have h100 : (100 : ℚ) * x ≤ 100 * y := by linarith
  have := roundHalfEven_mono h100
  have hc : ((roundHalfEven (100 * x) : ℤ) : ℚ) ≤ ((roundHalfEven (100 * y) : ℤ) : ℚ) := by
    exact_mod_cast this
  linarith

theorem listMinQ_le_init (xs : List ℚ) (x : ℚ) : listMinQ x xs ≤ x := by
  induction xs generalizing x with
  | nil => simp [listMinQ]
  | cons y ys ih =>
    calc listMinQ x (y :: ys) = listMinQ (min x y) ys := rfl
    _ ≤ min x y := ih _
    _ ≤ x := min_le_left _ _

theorem init_le_listMaxQ (xs : List ℚ) (x : ℚ) : x ≤ listMaxQ x xs := by
  induction xs generalizing x with
  | nil => simp [listMaxQ]
  | cons y ys ih =>
    calc x ≤ max x y := le_max_left x y
    _ ≤ listMaxQ (max x y) ys := ih _
    _ = listMaxQ x (y :: ys) := rfl

theorem listMinQ_mul_le_sum (xs : List ℚ) (x : ℚ) :
    listMinQ x xs * (xs.length + 1) ≤ x + xs.sum := by
  induction xs generalizing x with
  | nil => simp [listMinQ]
  | cons y ys ih =>
    have h1 : listMinQ (min x y) ys * (ys.length + 1) ≤ min x y + ys.sum := ih _
    have h2 : listMinQ (min x y) ys ≤ min x y := listMinQ_le_init ys _
    have h3 : min x y ≤ x := min_le_left _ _
    have h4 : min x y ≤ y := min_le_right _ _
    have hlen : ((y :: ys).length : ℚ) = (ys.length : ℚ) + 1 := by
      push_cast [List.length_cons]; ring
    calc listMinQ x (y :: ys) * ((y :: ys).length + 1)
        = listMinQ (min x y) ys * ((ys.length + 1) + 1) := by
          rw [show (listMinQ x (y :: ys)) = listMinQ (min x y) ys from rfl, hlen]
    _ = listMinQ (min x y) ys * (ys.length + 1) + listMinQ (min x y) ys := by ring
    _ ≤ (min x y + ys.sum) + x := by linarith
    _ ≤ x + (y :: ys).sum := by
          rw [List.sum_cons]; linarith

theorem sum_le_listMaxQ_mul (xs : List ℚ) (x : ℚ) :
    x + xs.sum ≤ listMaxQ x xs * (xs.length + 1) := by
  induction xs generalizing x with
  | nil => simp [listMaxQ]
  | cons y ys ih =>
    have h1 : max x y + ys.sum ≤ listMaxQ (max x y) ys * (ys.length + 1) := ih _
    have h2 : max x y ≤ listMaxQ (max x y) ys := init_le_listMaxQ ys _
    have h3 : x ≤ max x y := le_max_left _ _
    have h4 : y ≤ max x y := le_max_right _ _
    have hlen : ((y :: ys).length : ℚ) = (ys.length : ℚ) + 1 := by
      push_cast [List.length_cons]; ring
    calc x + (y :: ys).sum = x + (y + ys.sum) := by rw [List.sum_cons]
    _ ≤ listMaxQ (max x y) ys + (max x y + ys.sum) := by linarith
    _ ≤ listMaxQ (max x y) ys + listMaxQ (max x y) ys * (ys.length + 1) := by linarith
    _ = listMaxQ (max x y) ys * ((ys.length + 1) + 1) := by ring
    _ = listMaxQ x (y :: ys) * ((y :: ys).length + 1) := by
          rw [show (listMaxQ x (y :: ys)) = listMaxQ (max x y) ys from rfl, hlen]

theorem runIters_map_ok (ts : List ℚ) : runIters (ts.map Except.ok) = .ok ts := by
  induction ts with
  | nil => rfl
  | cons t rest ih => simp [runIters, ih]

theorem runIters_ok_inv (l : List (Except String ℚ)) (ts : List ℚ)
    (h : runIters l = .ok ts) : l = ts.map Except.ok := by
  induction l generalizing ts with
  | nil =>
    simp only [runIters] at h
    cases h
    rfl
  | cons o rest ih =>
    cases o with
    | error e => simp [runIters] at h
    | ok t =>
      simp only [runIters] at h
      cases hr : runIters rest with
      | error e => rw [hr] at h; cases h
      | ok us =>
        rw [hr] at h
        cases h
        simp [ih us hr]

theorem runItersT_map_ok (ts : List ℚ) : runItersT (ts.map SubQT.ok) = .ok ts := by
  induction ts with
  | nil => rfl
  | cons t rest ih => simp [runItersT, ih]

theorem runItersT_ok_inv (l : List (SubQT ℚ)) (ts : List ℚ)
    (h : runItersT l = .ok ts) : l = ts.map SubQT.ok := by
  induction l generalizing ts with
  | nil =>
    simp only [runItersT] at h
    cases h
    rfl
  | cons o rest ih =>
    cases o with
    | timeout => simp [runItersT] at h
    | err e => simp [runItersT] at h
    | ok t =>
      simp only [runItersT] at h
      cases hr : runItersT rest with
      | timeout => rw [hr] at h; cases h
      | err e => rw [hr] at h; cases h
      | ok us =>
        rw [hr] at h
        cases h
        simp [ih us hr]

theorem listMinQ_le_avg (t : ℚ) (ts : List ℚ) :
    listMinQ t ts ≤ (t :: ts).sum / (((t :: ts).length : ℕ) : ℚ) := by
  have h := listMinQ_mul_le_sum ts t
  have hlen : (0 : ℚ) < (((t :: ts).length : ℕ) : ℚ) := by
    simp [List.length_cons]
    positivity
  rw [le_div_iff₀ hlen]
  simp only [List.length_cons, List.sum_cons]
  push_cast
  linarith

theorem avg_le_listMaxQ (t : ℚ) (ts : List ℚ) :
    (t :: ts).sum / (((t :: ts).length : ℕ) : ℚ) ≤ listMaxQ t ts := by
  have h := sum_le_listMaxQ_mul ts t
  have hlen : (0 : ℚ) < (((t :: ts).length : ℕ) : ℚ) := by
    simp [List.length_cons]
    positivity
  rw [div_le_iff₀ hlen]
  simp only [List.length_cons, List.sum_cons]
  push_cast
  linarith

theorem filter_length_split {α : Type} (p : α → Bool) (l : List α) :
    (l.filter p).length + (l.filter (fun a => !p a)).length = l.length := by
  induction l with
  | nil => rfl
  | cons a as ih =>
    cases hp : p a <;> simp [List.filter_cons, hp] <;> omega

/-- C6: `_is_privilege_error` reports a privilege failure iff the lower-cased
message contains one of the seven fixed substrings; "permission denied for
relation x" classifies as a privilege failure, "connection refused" does not. -/
theorem c6_privilege_classifier :
    (∀ msg : String, _is_privilege_error msg = true ↔
      ∃ ind ∈ privilegeIndicators, ind.toList <:+: lowerChars msg) ∧
    _is_privilege_error "permission denied for relation x" = true ∧
    _is_privilege_error "connection refused" = false := by
  refine ⟨fun msg => ?_, by decide, by decide⟩
  simp only [_is_privilege_error, List.any_eq_true, hasSub_iff]

/-- C3 counterexample: for targets [A (fails), B (5 ms), C (2 ms)] the
endpoint returns the per-target results in original target order [A, B, C],
not in the claimed ranked order [C, B, A]. -/
theorem c3_counterexample :
    (test_all_databases c3Targets).results.map (fun r => r.id) = ["A", "B", "C"] ∧
    (test_all_databases c3Targets).results.map (fun r => r.id) ≠ ["C", "B", "A"] := by
  constructor
  · rfl
  · decide

/-- C3 (amended): `test_all_databases` applies no ranking at all: the
per-target results are returned in the original stored-target order (each
carrying its own success flag), together with total/success/failure counts. -/
theorem c3_results_in_original_order
    (conns : List (ConnMeta × Except String ConnTestResult)) :
    ((test_all_databases conns).results.map (fun r => r.id) =
      conns.map (fun p => p.1.id)) ∧
    (test_all_databases conns).total_databases = conns.length ∧
    (test_all_databases conns).successful_tests +
      (test_all_databases conns).failed_tests = conns.length := by
  refine ⟨?_, rfl, ?_⟩
  · simp only [test_all_databases, List.map_map]
    rfl
  · simp only [test_all_databases]
    rw [filter_length_split]
    simp

theorem subqtNotOk {α : Type} (s : SubQT α) (h : ∀ v, s ≠ .ok v) :
    s = .timeout ∨ ∃ e, s = .err e := by
  cases s with
  | ok v => exact absurd rfl (h v)
  | timeout => exact Or.inl rfl
  | err e => exact Or.inr ⟨e, rfl⟩

/-- C1: when every sub-query that fills a nullable numeric field fails, both
health-snapshot functions return `success = false`, record one warning per
failed sub-probe in the order attempted, and set `error` to the joined
warning list (behind the fixed summary prefix). -/
theorem c1_health_failure_error_joins_warnings :
    (∀ (d : String) (inp : HealthInputs) (e1 e2 e3 : String),
      inp.cacheQ = .error e1 → inp.connQ = .error e2 → inp.sizeQ = .error e3 →
      (get_health_metrics (some d) (.ok ()) inp).success = false ∧
      (get_health_metrics (some d) (.ok ()) inp).warnings =
        subWarn "Cache hit ratio" e1 :: subWarn "Connection stats" e2 ::
          subWarn "Database size" e3 :: (extOutcome inp.extQ inp.stmtsQ).2.2 ∧
      (get_health_metrics (some d) (.ok ()) inp).error =
        some (healthFailurePrefix ++ String.intercalate "; "
          (get_health_metrics (some d) (.ok ()) inp).warnings)) ∧
    (∀ (c : DatabaseConnection) (pw : String) (tmo : ℚ) (inp : HealthInputsT),
      c.password = some pw →
      (∀ v, inp.cacheQ ≠ .ok v) → (∀ v, inp.connQ ≠ .ok v) → (∀ v, inp.sizeQ ≠ .ok v) →
      (get_connection_health_metrics c tmo (.ok ()) inp).success = false ∧
      (get_connection_health_metrics c tmo (.ok ()) inp).warnings =
        numWarnT "Cache hit ratio" inp.cacheQ ++ numWarnT "Connection stats" inp.connQ ++
          numWarnT "Database size" inp.sizeQ ++ (extOutcomeT inp.extQ inp.stmtsQ).2.2 ∧
      (numWarnT "Cache hit ratio" inp.cacheQ).length = 1 ∧
      (numWarnT "Connection stats" inp.connQ).length = 1 ∧
      (numWarnT "Database size" inp.sizeQ).length = 1 ∧
      (get_connection_health_metrics c tmo (.ok ()) inp).error =
        some (healthFailurePrefix ++ String.intercalate "; "
          (get_connection_health_metrics c tmo (.ok ()) inp).warnings)) := by
  constructor
  · rintro d ⟨cq, nq, sq, eq, stq⟩ e1 e2 e3 h1 h2 h3
    cases h1
    cases h2
    cases h3
    exact ⟨rfl, rfl, rfl⟩
  · rintro ⟨cid, cname, chost, cport, cdb, cuser, cpw⟩ pw tmo
      ⟨cq, nq, sq, eq, stq⟩ hp h1 h2 h3
    cases hp
    rcases subqtNotOk cq h1 with rfl | ⟨e1, rfl⟩ <;>
      rcases subqtNotOk nq h2 with rfl | ⟨e2, rfl⟩ <;>
        rcases subqtNotOk sq h3 with rfl | ⟨e3, rfl⟩ <;>
          exact ⟨rfl, rfl, rfl, rfl, rfl, rfl⟩

/-- C1 witness at a concrete input. -/
theorem c1_witness :
    (get_health_metrics (some "dsn") (.ok ()) c1Inp).success = false ∧
    (get_health_metrics (some "dsn") (.ok ()) c1Inp).error =
      some (healthFailurePrefix ++ String.intercalate "; "
        (get_health_metrics (some "dsn") (.ok ()) c1Inp).warnings) := by
  have h := c1_health_failure_error_joins_warnings.1 "dsn" c1Inp "a" "b" "c" rfl rfl rfl
  exact ⟨h.1, h.2.2⟩

/-- C2 counterexample: with the pg_stat_statements extension check and the
slow-query retrieval succeeding (the report even flags the extension as
available) but all three numeric sub-queries failing, the report has
`success = false`, not `success = true` as the claim states. -/
theorem c2_counterexample :
    c2Inp.extQ = Except.ok true ∧
    (get_health_metrics (some "dsn") (.ok ()) c2Inp).pg_stat_statements_available = true ∧
    (get_health_metrics (some "dsn") (.ok ()) c2Inp).success = false := by
  exact ⟨rfl, rfl, rfl⟩

/-- C2 (amended): `success = true` iff at least one of the three sub-queries
that fill nullable numeric fields (cache-hit ratio, connection counts,
database size) succeeds; a success in only the extension check or the
slow-query retrieval does not count. -/
theorem c2_success_iff_numeric_metric_retrieved :
    (∀ (d : String) (inp : HealthInputs),
      ((∃ v, inp.cacheQ = .ok v) ∨ (∃ v, inp.connQ = .ok v) ∨ (∃ v, inp.sizeQ = .ok v)) →
      (get_health_metrics (some d) (.ok ()) inp).success = true) ∧
    (∀ (c : DatabaseConnection) (pw : String) (tmo : ℚ) (inp : HealthInputsT),
      c.password = some pw →
      ((∃ v, inp.cacheQ = .ok v) ∨ (∃ v, inp.connQ = .ok v) ∨ (∃ v, inp.sizeQ = .ok v)) →
      (get_connection_health_metrics c tmo (.ok ()) inp).success = true) := by
  constructor
  · rintro d ⟨cq, nq, sq, eq, stq⟩ (⟨v, rfl⟩ | ⟨v, rfl⟩ | ⟨v, rfl⟩) <;>
      simp [get_health_metrics]
  · rintro ⟨cid, cname, chost, cport, cdb, cuser, cpw⟩ pw tmo
      ⟨cq, nq, sq, eq, stq⟩ hp (⟨v, rfl⟩ | ⟨v, rfl⟩ | ⟨v, rfl⟩) <;>
      cases hp <;> simp [get_connection_health_metrics]

/-- C2 witness at a concrete input. -/
theorem c2_witness :
    (get_health_metrics (some "dsn") (.ok ()) c2WitInp).success = true :=
  c2_success_iff_numeric_metric_retrieved.1 "dsn" c2WitInp (Or.inl ⟨some 99, rfl⟩)

/-- C4: if any single iteration of the latency loop fails (connection open,
query execution, or timeout), the whole report is a failure carrying an
error message and no timing statistics at all. -/
theorem c4_single_failure_fails_whole_latency_report :
    (∀ (d : String) (n : ℕ) (outs : ℕ → Except String ℚ),
      (∃ i < n, ∀ v, outs i ≠ .ok v) →
      (measure_latency (some d) n outs).success = false ∧
      (measure_latency (some d) n outs).timings = none ∧
      (measure_latency (some d) n outs).min_ms = none ∧
      (measure_latency (some d) n outs).max_ms = none ∧
      (measure_latency (some d) n outs).avg_ms = none ∧
      ∃ e, (measure_latency (some d) n outs).error = some e) ∧
    (∀ (c : DatabaseConnection) (pw : String) (tmo : ℚ) (n : ℕ)
        (outs : ℕ → SubQT ℚ),
      c.password = some pw →
      (∃ i < n, ∀ v, outs i ≠ .ok v) →
      (measure_connection_latency c n tmo outs).success = false ∧
      (measure_connection_latency c n tmo outs).timings = none ∧
      (measure_connection_latency c n tmo outs).min_ms = none ∧
      (measure_connection_latency c n tmo outs).max_ms = none ∧
      (measure_connection_latency c n tmo outs).avg_ms = none ∧
      ∃ e, (measure_connection_latency c n tmo outs).error = some e) := by
  constructor
  · rintro d n outs ⟨i, hin, hbad⟩
    cases hr : runIters ((List.range n).map outs) with
    | error e =>
      refine ⟨?_, ?_, ?_, ?_, ?_, e, ?_⟩ <;> simp [measure_latency, hr]
    | ok ts =>
      exfalso
      have hmem : outs i ∈ (List.range n).map outs :=
        List.mem_map_of_mem outs (List.mem_range.mpr hin)
      rw [runIters_ok_inv _ _ hr] at hmem
      obtain ⟨v, hv, hveq⟩ := List.mem_map.mp hmem
      exact hbad v hveq.symm
  · rintro ⟨cid, cname, chost, cport, cdb, cuser, cpw⟩ pw tmo n outs hp ⟨i, hin, hbad⟩
    cases hp
    cases hr : runItersT ((List.range n).map outs) with
    | timeout =>
      refine ⟨?_, ?_, ?_, ?_, ?_, timeoutError tmo, ?_⟩ <;>
        simp [measure_connection_latency, hr]
    | err e =>
      refine ⟨?_, ?_, ?_, ?_, ?_, e, ?_⟩ <;> simp [measure_connection_latency, hr]
    | ok ts =>
      exfalso
      have hmem : outs i ∈ (List.range n).map outs :=
        List.mem_map_of_mem outs (List.mem_range.mpr hin)
      rw [runItersT_ok_inv _ _ hr] at hmem
      obtain ⟨v, hv, hveq⟩ := List.mem_map.mp hmem
      exact hbad v hveq.symm

/-- C4 witness at a concrete input: iteration 1 of 3 raises. -/
theorem c4_witness :
    (measure_latency (some "dsn") 3
      (fun i => if i = 1 then .error "connection refused" else .ok 2)).success = false :=
  (c4_single_failure_fails_whole_latency_report.1 "dsn" 3
    (fun i => if i = 1 then .error "connection refused" else .ok 2)
    ⟨1, by norm_num, fun v h => by simp at h⟩).1

/-- C5: with n >= 1 iterations all succeeding, the report is a success whose
rounded statistics satisfy min_ms <= avg_ms <= max_ms, and whose timing list
has exactly n entries in iteration order. -/
theorem c5_latency_statistics_ordered :
    (∀ (d : String) (n : ℕ) (f : ℕ → ℚ), 1 ≤ n →
      ∃ mn av mx tl,
        measure_latency (some d) n (fun i => .ok (f i)) =
          { success := true, iterations := some n, min_ms := some mn,
            max_ms := some mx, avg_ms := some av, timings := some tl } ∧
        mn ≤ av ∧ av ≤ mx ∧ tl.length = n ∧
        tl = ((List.range n).map f).map pyRound2) ∧
    (∀ (c : DatabaseConnection) (pw : String) (tmo : ℚ) (n : ℕ) (f : ℕ → ℚ),
      c.password = some pw → 1 ≤ n →
      ∃ mn av mx tl,
        measure_connection_latency c n tmo (fun i => .ok (f i)) =
          { success := true, iterations := some n, min_ms := some mn,
            max_ms := some mx, avg_ms := some av, timings := some tl,
            connection_id := some c.id, connection_name := some c.name } ∧
        mn ≤ av ∧ av ≤ mx ∧ tl.length = n ∧
        tl = ((List.range n).map f).map pyRound2) := by
  constructor
  · intro d n f hn
    obtain ⟨m, rfl⟩ : ∃ m, n = m + 1 := ⟨n - 1, by omega⟩
    have hcons : (List.range (m + 1)).map f =
        f 0 :: (List.range m).map (fun i => f (i + 1)) := by
      rw [List.range_succ_eq_map, List.map_cons, List.map_map]
      rfl
    have hrun : runIters ((List.range (m + 1)).map (fun i => .ok (f i))) =
        .ok (f 0 :: (List.range m).map (fun i => f (i + 1))) := by
      have : (List.range (m + 1)).map (fun i => (Except.ok (f i) : Except String ℚ)) =
          ((List.range (m + 1)).map f).map Except.ok := by
        rw [List.map_map]
        rfl
      rw [this, runIters_map_ok, hcons]
    set ts : List ℚ := (List.range m).map (fun i => f (i + 1)) with hts
    refine ⟨pyRound2 (listMinQ (f 0) ts),
      pyRound2 ((f 0 :: ts).sum / ((f 0 :: ts).length : ℚ)),
      pyRound2 (listMaxQ (f 0) ts),
      (f 0 :: ts).map pyRound2, ?_, ?_, ?_, ?_, ?_⟩
    · simp [measure_latency, hrun]
    · exact pyRound2_mono (listMinQ_le_avg _ _)
    · exact pyRound2_mono (avg_le_listMaxQ _ _)
    · simp [hts]
    · rw [hcons]
  · intro c pw tmo n f hp hn
    obtain ⟨m, rfl⟩ : ∃ m, n = m + 1 := ⟨n - 1, by omega⟩
    obtain ⟨cid, cname, chost, cport, cdb, cuser, cpw⟩ := c
    cases hp
    have hcons : (List.range (m + 1)).map f =
        f 0 :: (List.range m).map (fun i => f (i + 1)) := by
      rw [List.range_succ_eq_map, List.map_cons, List.map_map]
      rfl
    have hrun : runItersT ((List.range (m + 1)).map (fun i => .ok (f i))) =
        .ok (f 0 :: (List.range m).map (fun i => f (i + 1))) := by
      have : (List.range (m + 1)).map (fun i => (SubQT.ok (f i) : SubQT ℚ)) =
          ((List.range (m + 1)).map f).map SubQT.ok := by
        rw [List.map_map]
        rfl
      rw [this, runItersT_map_ok, hcons]
    set ts : List ℚ := (List.range m).map (fun i => f (i + 1)) with hts
    refine ⟨pyRound2 (listMinQ (f 0) ts),
      pyRound2 ((f 0 :: ts).sum / ((f 0 :: ts).length : ℚ)),
      pyRound2 (listMaxQ (f 0) ts),
      (f 0 :: ts).map pyRound2, ?_, ?_, ?_, ?_, ?_⟩
    · simp [measure_connection_latency, hrun]
    · exact pyRound2_mono (listMinQ_le_avg _ _)
    · exact pyRound2_mono (avg_le_listMaxQ _ _)
    · simp [hts]
    · rw [hcons]

/-- C5 witness at a concrete input: two iterations, timings 3 ms and 1 ms. -/
theorem c5_witness :
    ∃ mn av mx tl,
      measure_latency (some "dsn") 2 (fun i => .ok ((if i = 0 then (3 : ℚ) else 1))) =
        { success := true, iterations := some 2, min_ms := some mn,
          max_ms := some mx, avg_ms := some av, timings := some tl } ∧
      mn ≤ av ∧ av ≤ mx ∧ tl.length = 2 ∧
      tl = ((List.range 2).map (fun i => if i = 0 then (3 : ℚ) else 1)).map pyRound2 :=
  c5_latency_statistics_ordered.1 "dsn" 2 (fun i => if i = 0 then (3 : ℚ) else 1)
    (by norm_num)

theorem pyRound2_eq_of_lt (q : ℚ) (n : ℤ) (h1 : (n : ℚ) ≤ 100 * q)
    (h2 : 100 * q - n < 1/2) : pyRound2 q = (n : ℚ) / 100 := by
  have hf : ⌊(100 : ℚ) * q⌋ = n := Int.floor_eq_iff.mpr ⟨h1, by linarith⟩
  unfold pyRound2 roundHalfEven
  rw [hf, if_pos h2]

theorem pyRound2_eq_of_gt (q : ℚ) (n : ℤ) (h1 : (n : ℚ) ≤ 100 * q)
    (h2 : 1/2 < 100 * q - n) (h3 : 100 * q < (n : ℚ) + 1) :
    pyRound2 q = ((n : ℚ) + 1) / 100 := by
  have hf : ⌊(100 : ℚ) * q⌋ = n := Int.floor_eq_iff.mpr ⟨h1, h3⟩
  unfold pyRound2 roundHalfEven
  rw [hf, if_neg (by linarith), if_pos h2]
  push_cast
  ring

theorem pyRound2_eq_of_tie_even (q : ℚ) (n : ℤ) (heven : Even n)
    (h : 100 * q - n = 1/2) : pyRound2 q = (n : ℚ) / 100 := by
  have hf : ⌊(100 : ℚ) * q⌋ = n := Int.floor_eq_iff.mpr ⟨by linarith, by linarith⟩
  unfold pyRound2 roundHalfEven
  rw [hf, if_neg (by linarith), if_neg (by linarith), if_pos heven]

/-- C8 (amended): with all n probes succeeding and a positive raw wall-clock
duration T, the report carries `total_time_ms = round(T, 2)` and
`queries_per_second = round(n / (T/1000), 2)` computed from the UNROUNDED
duration T, for both load-test functions. -/
theorem c8_load_test_throughput :
    (∀ (d : String) (n : ℕ) (f : ℕ → ℚ) (tt : ℚ), 1 ≤ n → 0 < tt →
      (load_test (some d) n (fun i => .ok (f i)) tt).success = true ∧
      (load_test (some d) n (fun i => .ok (f i)) tt).total_time_ms =
        some (pyRound2 tt) ∧
      (load_test (some d) n (fun i => .ok (f i)) tt).queries_per_second =
        some (pyRound2 ((n : ℚ) / (tt / 1000)))) ∧
    (∀ (c : DatabaseConnection) (pw : String) (tmo : ℚ) (n : ℕ) (f : ℕ → ℚ)
        (tt : ℚ), c.password = some pw → 1 ≤ n → 0 < tt →
      (run_connection_load_test c n tmo (fun i => .ok (f i)) tt).success = true ∧
      (run_connection_load_test c n tmo (fun i => .ok (f i)) tt).total_time_ms =
        some (pyRound2 tt) ∧
      (run_connection_load_test c n tmo (fun i => .ok (f i)) tt).queries_per_second =
        some (pyRound2 ((n : ℚ) / (tt / 1000)))) := by
  constructor
  · intro d n f tt hn htt
    obtain ⟨m, rfl⟩ : ∃ m, n = m + 1 := ⟨n - 1, by omega⟩
    have hcons : (List.range (m + 1)).map f =
        f 0 :: (List.range m).map (fun i => f (i + 1)) := by
      rw [List.range_succ_eq_map, List.map_cons, List.map_map]
      rfl
    have hrun : runIters ((List.range (m + 1)).map (fun i => .ok (f i))) =
        .ok (f 0 :: (List.range m).map (fun i => f (i + 1))) := by
      have : (List.range (m + 1)).map (fun i => (Except.ok (f i) : Except String ℚ)) =
          ((List.range (m + 1)).map f).map Except.ok := by
        rw [List.map_map]
        rfl
      rw [this, runIters_map_ok, hcons]
    refine ⟨?_, ?_, ?_⟩ <;> simp [load_test, hrun, htt.ne']
  · intro c pw tmo n f tt hp hn htt
    obtain ⟨m, rfl⟩ : ∃ m, n = m + 1 := ⟨n - 1, by omega⟩
    obtain ⟨cid, cname, chost, cport, cdb, cuser, cpw⟩ := c
    cases hp
    have hcons : (List.range (m + 1)).map f =
        f 0 :: (List.range m).map (fun i => f (i + 1)) := by
      rw [List.range_succ_eq_map, List.map_cons, List.map_map]
      rfl
    have hrun : runItersT ((List.range (m + 1)).map (fun i => .ok (f i))) =
        .ok (f 0 :: (List.range m).map (fun i => f (i + 1))) := by
      have : (List.range (m + 1)).map (fun i => (SubQT.ok (f i) : SubQT ℚ)) =
          ((List.range (m + 1)).map f).map SubQT.ok := by
        rw [List.map_map]
        rfl
      rw [this, runItersT_map_ok, hcons]
    refine ⟨?_, ?_, ?_⟩ <;> simp [run_connection_load_test, hrun, htt.ne']

/-- C8 witness at a concrete input: one probe, raw duration 2 ms. -/
theorem c8_witness :
    (load_test (some "dsn") 1 (fun _ => .ok 2) 2).success = true ∧
    (load_test (some "dsn") 1 (fun _ => .ok 2) 2).total_time_ms =
      some (pyRound2 2) ∧
    (load_test (some "dsn") 1 (fun _ => .ok 2) 2).queries_per_second =
      some (pyRound2 (((1 : ℕ) : ℚ) / (2 / 1000))) :=
  c8_load_test_throughput.1 "dsn" 1 (fun _ => (2 : ℚ)) 2 (by norm_num) (by norm_num)

/-- C8 counterexample: one probe, raw duration T = 3.125 ms. The code sets
`total_time_ms = 3.12` (half-even tie) and `queries_per_second = 320.0`
(computed from T), while `round(c / (total_time_ms / 1000), 2)` recomputed
from the reported rounded field is 320.51 — so the claimed equation fails
against the reported `total_time_ms`. -/
theorem c8_counterexample :
    (load_test (some "dsn") 1 (fun _ => .ok (25/8)) (25/8)).total_time_ms =
      some (312/100) ∧
    (load_test (some "dsn") 1 (fun _ => .ok (25/8)) (25/8)).queries_per_second =
      some 320 ∧
    pyRound2 ((1 : ℚ) / ((312/100) / 1000)) = 32051/100 ∧
    ((320 : ℚ)) ≠ 32051/100 := by
  have hrun : runIters ((List.range 1).map
      (fun _ => (Except.ok ((25 : ℚ)/8) : Except String ℚ))) = .ok [(25 : ℚ)/8] := by
    have h : (List.range 1).map (fun _ => (Except.ok ((25 : ℚ)/8) : Except String ℚ)) =
        ([(25 : ℚ)/8]).map Except.ok := by simp
    rw [h, runIters_map_ok]
  have htt : pyRound2 ((25 : ℚ)/8) = (312 : ℚ)/100 := by
    have := pyRound2_eq_of_tie_even ((25 : ℚ)/8) 312 (by decide) (by norm_num)
    simpa using this
  have hqps : pyRound2 (((1 : ℕ) : ℚ) / ((25/8) / 1000)) = 320 := by
    have h32 := pyRound2_eq_of_lt (((1 : ℕ) : ℚ) / ((25/8) / 1000)) 32000
      (by norm_num) (by norm_num)
    rw [h32]
    norm_num
  have hclaim : pyRound2 ((1 : ℚ) / ((312/100) / 1000)) = 32051/100 := by
    have h51 := pyRound2_eq_of_lt ((1 : ℚ) / ((312/100) / 1000)) 32051
      (by norm_num) (by norm_num)
    rw [h51]
    norm_num
  have hne : ¬((25 : ℚ)/8 = 0) := by norm_num
  refine ⟨?_, ?_, hclaim, by norm_num⟩
  · simp only [load_test, hrun]
    rw [if_neg hne]
    show some (pyRound2 ((25 : ℚ)/8)) = some ((312 : ℚ)/100)
    rw [htt]
  · simp only [load_test, hrun]
    rw [if_neg hne]
    show some (pyRound2 (((1 : ℕ) : ℚ) / (((25 : ℚ)/8) / 1000))) = some (320 : ℚ)
    rw [hqps]

theorem runIters_fails (n : ℕ) (outs : ℕ → Except String ℚ)
    (h : ∃ i < n, ∀ v, outs i ≠ .ok v) :
    ∃ e, runIters ((List.range n).map outs) = .error e := by
  cases hr : runIters ((List.range n).map outs) with
  | error e => exact ⟨e, rfl⟩
  | ok ts =>
    exfalso
    obtain ⟨i, hin, hbad⟩ := h
    have hmem : outs i ∈ (List.range n).map outs :=
      List.mem_map_of_mem outs (List.mem_range.mpr hin)
    rw [runIters_ok_inv _ _ hr] at hmem
    obtain ⟨v, hv, hveq⟩ := List.mem_map.mp hmem
    exact hbad v hveq.symm

theorem runItersT_fails (n : ℕ) (outs : ℕ → SubQT ℚ)
    (h : ∃ i < n, ∀ v, outs i ≠ .ok v) :
    runItersT ((List.range n).map outs) = .timeout ∨
    ∃ e, runItersT ((List.range n).map outs) = .err e := by
  cases hr : runItersT ((List.range n).map outs) with
  | timeout => exact Or.inl rfl
  | err e => exact Or.inr ⟨e, rfl⟩
  | ok ts =>
    exfalso
    obtain ⟨i, hin, hbad⟩ := h
    have hmem : outs i ∈ (List.range n).map outs :=
      List.mem_map_of_mem outs (List.mem_range.mpr hin)
    rw [runItersT_ok_inv _ _ hr] at hmem
    obtain ⟨v, hv, hveq⟩ := List.mem_map.mp hmem
    exact hbad v hveq.symm

/-- C7: every public probe operation converts a driver failure into a report
with `success = false` whose error field carries the failure; the per-target
variants do so for timeout expiry too. No failure escapes as an unhandled
fault: each embedded operation is a total function into a report. -/
theorem c7_failures_become_failure_reports :
    (∀ (d e : String) (el : ℚ),
      (test_connection (some d) (.error e) el).success = false ∧
      (test_connection (some d) (.error e) el).error = some e) ∧
    (∀ (d : String) (n : ℕ) (outs : ℕ → Except String ℚ),
      (∃ i < n, ∀ v, outs i ≠ .ok v) →
      (measure_latency (some d) n outs).success = false ∧
      ∃ e, (measure_latency (some d) n outs).error = some e) ∧
    (∀ (d : String) (n : ℕ) (outs : ℕ → Except String ℚ) (tt : ℚ),
      (∃ i < n, ∀ v, outs i ≠ .ok v) →
      (load_test (some d) n outs tt).success = false ∧
      ∃ e, (load_test (some d) n outs tt).error = some e) ∧
    (∀ (d e : String) (inp : HealthInputs),
      (get_health_metrics (some d) (.error e) inp).success = false ∧
      (get_health_metrics (some d) (.error e) inp).error = some e) ∧
    (∀ (c : DatabaseConnection) (tmo : ℚ) (e : String) (inp : HealthInputsT),
      ((get_connection_health_metrics c tmo (.err e) inp).success = false ∧
       (get_connection_health_metrics c tmo (.err e) inp).error ≠ none) ∧
      ((get_connection_health_metrics c tmo .timeout inp).success = false ∧
       (get_connection_health_metrics c tmo .timeout inp).error ≠ none)) ∧
    (∀ (c : DatabaseConnection) (n : ℕ) (tmo : ℚ) (outs : ℕ → SubQT ℚ),
      (∃ i < n, ∀ v, outs i ≠ .ok v) →
      (measure_connection_latency c n tmo outs).success = false ∧
      ∃ e, (measure_connection_latency c n tmo outs).error = some e) ∧
    (∀ (c : DatabaseConnection) (n : ℕ) (tmo : ℚ) (outs : ℕ → SubQT ℚ) (tt : ℚ),
      (∃ i < n, ∀ v, outs i ≠ .ok v) →
      (run_connection_load_test c n tmo outs tt).success = false ∧
      ∃ e, (run_connection_load_test c n tmo outs tt).error = some e) := by
  refine ⟨fun d e el => ⟨rfl, rfl⟩, ?_, ?_, fun d e inp => ⟨rfl, rfl⟩, ?_, ?_, ?_⟩
  · intro d n outs h
    obtain ⟨e, hr⟩ := runIters_fails n outs h
    exact ⟨by simp [measure_latency, hr], e, by simp [measure_latency, hr]⟩
  · intro d n outs tt h
    obtain ⟨e, hr⟩ := runIters_fails n outs h
    exact ⟨by simp [load_test, hr], e, by simp [load_test, hr]⟩
  · intro c tmo e inp
    cases hcp : c.password with
    | none =>
      refine ⟨⟨?_, ?_⟩, ?_, ?_⟩ <;> simp [get_connection_health_metrics, hcp]
    | some pw =>
      refine ⟨⟨?_, ?_⟩, ?_, ?_⟩ <;> simp [get_connection_health_metrics, hcp]
  · rintro c n tmo outs h
    cases hcp : c.password with
    | none =>
      exact ⟨by simp [measure_connection_latency, hcp],
        "No password provided for database connection",
        by simp [measure_connection_latency, hcp]⟩
    | some pw =>
      rcases runItersT_fails n outs h with hr | ⟨e, hr⟩
      · exact ⟨by simp [measure_connection_latency, hcp, hr], timeoutError tmo,
          by simp [measure_connection_latency, hcp, hr]⟩
      · exact ⟨by simp [measure_connection_latency, hcp, hr], e,
          by simp [measure_connection_latency, hcp, hr]⟩
  · rintro c n tmo outs tt h
    cases hcp : c.password with
    | none =>
      exact ⟨by simp [run_connection_load_test, hcp],
        "No password provided for database connection",
        by simp [run_connection_load_test, hcp]⟩
    | some pw =>
      rcases runItersT_fails n outs h with hr | ⟨e, hr⟩
      · exact ⟨by simp [run_connection_load_test, hcp, hr], timeoutError tmo,
          by simp [run_connection_load_test, hcp, hr]⟩
      · exact ⟨by simp [run_connection_load_test, hcp, hr], e,
          by simp [run_connection_load_test, hcp, hr]⟩

/-- C7 witness at a concrete input: a refused connection in a single probe. -/
theorem c7_witness :
    (test_connection (some "dsn") (.error "connection refused") 1).success = false ∧
    (test_connection (some "dsn") (.error "connection refused") 1).error =
      some "connection refused" :=
  c7_failures_become_failure_reports.1 "dsn" "connection refused" 1

/-- C9: the `get_connection`-based single-probe test closes its connection on
every path (the context manager's finally), but
`test_connection_with_password` reaches `conn.close()` only on its success
path: when the connect succeeds and the diagnostic query then raises, the
except-arm returns the failure report with the opened connection never
closed (opened = 1, closed = 0). -/
theorem c9_connection_close_trace :
    (∀ (d : String) (connect : Except String Unit)
        (query : Except String (String × ℤ × String)) (el : ℚ),
      (test_connection_traced (some d) connect query el).2.1 =
        (test_connection_traced (some d) connect query el).2.2) ∧
    ((test_connection_with_password demoConn "pw" (.ok ())
        (.error "permission denied for relation pg_stat_activity") 1).2.1 = 1 ∧
     (test_connection_with_password demoConn "pw" (.ok ())
        (.error "permission denied for relation pg_stat_activity") 1).2.2 = 0 ∧
     (test_connection_with_password demoConn "pw" (.ok ())
        (.error "permission denied for relation pg_stat_activity") 1).1.success
        = false) := by
  constructor
  · intro d connect query el
    cases connect with
    | error e => rfl
    | ok u =>
      cases query with
      | error e => rfl
      | ok v =>
        obtain ⟨ip, pid, ver⟩ := v
        rfl
  · exact ⟨rfl, rfl, rfl⟩

/-- C10: a zero iteration/concurrency count reaches the core unchecked, the
empty timing set makes the statistics raise and the catch-all converts that
into a failure report; no success report ever carries an empty timing list;
the 1-100 range is enforced only at the HTTP boundary (which rejects 0). -/
theorem c10_zero_counts_fail_in_core :
    (∀ (d : String) (outs : ℕ → Except String ℚ),
      (measure_latency (some d) 0 outs).success = false ∧
      (measure_latency (some d) 0 outs).error = some emptySeqError) ∧
    (∀ (c : DatabaseConnection) (pw : String) (tmo : ℚ) (outs : ℕ → SubQT ℚ),
      c.password = some pw →
      (measure_connection_latency c 0 tmo outs).success = false ∧
      (measure_connection_latency c 0 tmo outs).error = some emptySeqError) ∧
    (∀ (d : String) (outs : ℕ → Except String ℚ) (tt : ℚ),
      (load_test (some d) 0 outs tt).success = false) ∧
    (∀ (c : DatabaseConnection) (pw : String) (tmo : ℚ) (outs : ℕ → SubQT ℚ)
        (tt : ℚ), c.password = some pw →
      (run_connection_load_test c 0 tmo outs tt).success = false) ∧
    (∀ (d : String) (n : ℕ) (outs : ℕ → Except String ℚ),
      (measure_latency (some d) n outs).success = true →
      (measure_latency (some d) n outs).timings ≠ some []) ∧
    apiIterationsRejected 0 = true ∧
    apiConcurrentRejected 0 = true ∧
    apiIterationsRejected 5 = false := by
  refine ⟨?_, ?_, ?_, ?_, ?_, rfl, rfl, rfl⟩
  · intro d outs
    exact ⟨by simp [measure_latency, runIters], by simp [measure_latency, runIters]⟩
  · intro c pw tmo outs hp
    exact ⟨by simp [measure_connection_latency, hp, runItersT],
      by simp [measure_connection_latency, hp, runItersT]⟩
  · intro d outs tt
    simp [load_test, runIters]
  · intro c pw tmo outs tt hp
    simp [run_connection_load_test, hp, runItersT]
  · intro d n outs hsucc
    cases hr : runIters ((List.range n).map outs) with
    | error e => simp [measure_latency, hr] at hsucc
    | ok ts =>
      cases ts with
      | nil => simp [measure_latency, hr] at hsucc
      | cons t rest => simp [measure_latency, hr]

/-- C10 witness at a concrete input: zero iterations against the demo
target. -/
theorem c10_witness :
    (measure_connection_latency demoConn 0 10 (fun _ => .ok 1)).success = false :=
  (c10_zero_counts_fail_in_core.2.1 demoConn "pw" 10 (fun _ => .ok 1) rfl).1

end MRDash
